import Mathlib

/-!
A shallow embedding of the `simforest` package (`src/simforest/simforest.py`)
together with theorems checking the package's specification against the code.

Conventions of the embedding:
* numpy scalars are modelled by `PyFloat`: a finite rational or one of the
  IEEE non-finite values that sklearn's validation rejects;
* a 2-D numpy array is a list of rows;
* sklearn validation utilities (`check_array`, `check_X_y`,
  `check_is_fitted`) are modelled at the level the code observes them:
  shape/finiteness checks raising `SkError.validation`, and
  attribute-existence checks raising `SkError.notFitted`;
* attributes that a Python object acquires only when `fit` assigns them are
  modelled by an `Option` field that is `none` on a freshly constructed
  estimator;
* raising an exception is modelled by `Except.error`.
-/

/-- A numpy scalar as it appears in an input array: a finite rational, or one
of the IEEE non-finite values (`nan`, `inf`, `-inf`) that sklearn's input
validation rejects.  No code path under `src` performs arithmetic on the
stored data, so no arithmetic is modelled. -/
inductive PyFloat where
  | finite (q : ℚ)
  | nan
  | inf
  | ninf
  deriving DecidableEq

/-- True exactly for finite values; mirrors numpy's `isfinite`, which is
what `sklearn.utils.check_array(force_all_finite=True)` tests. -/
def PyFloat.isFinite : PyFloat → Bool
  | .finite _ => true
  | _ => false

/-- Exceptions observable at the simforest API boundary. -/
inductive SkError where
  | validation
  | notFitted
  | attributeError
  deriving DecidableEq

/-- A 2-D numpy array: a list of rows. -/
abbrev RMatrix := List (List PyFloat)

/-- Embeds `sklearn.utils.validation.check_array` with the library's default
arguments, as called throughout `simforest.py`: the input must be a
non-empty 2-D array (at least one sample, at least one feature, uniform row
length) whose entries are all finite; on success the array is returned
unchanged. -/
def check_array (X : RMatrix) : Except SkError RMatrix :=
  match X with
  | [] => .error .validation
  | r0 :: rest =>
    if r0.length = 0 then .error .validation
    else if rest.all (fun r => r.length = r0.length) then
      if (r0 :: rest).all (fun r => r.all PyFloat.isFinite) then .ok (r0 :: rest)
      else .error .validation
    else .error .validation

/-- Embeds `sklearn.utils.validation.check_X_y` specialised to an integer label
vector (classification): validates `X` as `check_array` does and requires
`y` to have exactly one entry per row of `X`. -/
def check_X_y_int (X : RMatrix) (y : List ℤ) : Except SkError (RMatrix × List ℤ) :=
  match check_array X with
  | .error e => .error e
  | .ok X1 =>
    if y.length = X1.length then .ok (X1, y) else .error .validation

/-- Embeds `sklearn.utils.validation.check_X_y` specialised to a real-valued target
vector (regression): validates `X` as `check_array` does, requires one entry
of `y` per row of `X`, and requires `y` to be finite. -/
def check_X_y_float (X : RMatrix) (y : List PyFloat) :
    Except SkError (RMatrix × List PyFloat) :=
  match check_array X with
  | .error e => .error e
  | .ok X1 =>
    if y.length = X1.length then
      if y.all PyFloat.isFinite then .ok (X1, y) else .error .validation
    else .error .validation

/-- Embeds `sklearn.utils.multiclass.unique_labels` on integer labels: the sorted
list of distinct labels occurring in `y`. -/
def unique_labels (y : List ℤ) : List ℤ :=
  y.dedup.insertionSort (· ≤ ·)

/-- The result of a numpy array-producing call, keeping track of whether the
produced array is 1-D (`vec`) or 2-D (`mat`). -/
inductive NDArray where
  | vec (v : List ℚ)
  | mat (m : List (List ℚ))
  deriving DecidableEq

/-- Whether an `NDArray` is two-dimensional. -/
def NDArray.is2d : NDArray → Bool
  | .vec _ => false
  | .mat _ => true

/-- The attributes `SimilarityTreeClassifier.fit` assigns on `self`. -/
structure ClfFitted where
  classes_ : List ℤ
  X_ : RMatrix
  y_ : List ℤ
  deriving DecidableEq

/-- Embeds `SimilarityTreeClassifier`: the `demo_param` constructor argument plus
the attributes that exist only after `fit` has been called (`none` on a
freshly constructed estimator; `fit` also sets `is_fitted_ = True`, whose
existence is exactly `fitted.isSome`). -/
structure SimilarityTreeClassifier where
  demo_param : String := "demo_param"
  fitted : Option ClfFitted := none
  deriving DecidableEq

/-- Embeds `SimilarityTreeClassifier.fit`: `check_X_y`, store the sorted unique
labels in `classes_`, store `X_`, `y_`, set `is_fitted_`, return `self`. -/
def SimilarityTreeClassifier.fit (self : SimilarityTreeClassifier) (X : RMatrix)
    (y : List ℤ) : Except SkError SimilarityTreeClassifier :=
  match check_X_y_int X y with
  | .error e => .error e
  | .ok (X1, y1) =>
    .ok { self with fitted := some { classes_ := unique_labels y1, X_ := X1, y_ := y1 } }

/-- Embeds `SimilarityTreeClassifier.predict`: `check_is_fitted(self, 'is_fitted_')`,
then `check_array(X)`, then return `np.ones(X.shape[0], dtype=np.int64)`. -/
def SimilarityTreeClassifier.predict (self : SimilarityTreeClassifier)
    (X : RMatrix) : Except SkError (List ℤ) :=
  match self.fitted with
  | none => .error .notFitted
  | some _ =>
    match check_array X with
    | .error e => .error e
    | .ok X1 => .ok (List.replicate X1.length 1)

/-- Embeds `SimilarityTreeClassifier.predict_proba`: `check_is_fitted`, then
`check_array(X)`, then return `np.ones(X.shape[0], dtype=np.float32)` — a
one-dimensional array of ones. -/
def SimilarityTreeClassifier.predict_proba (self : SimilarityTreeClassifier)
    (X : RMatrix) : Except SkError NDArray :=
  match self.fitted with
  | none => .error .notFitted
  | some _ =>
    match check_array X with
    | .error e => .error e
    | .ok X1 => .ok (NDArray.vec (List.replicate X1.length 1))

/-- The child-link structure reachable from a fitted
`SimilarityTreeRegressor` node: the `_lhs` and `_rhs` attributes, each either
`None` or another (fitted) node.  Only these links are inspected by
`get_depth` and `get_n_leaves`. -/
inductive RNode where
  | mk (lhs : Option RNode) (rhs : Option RNode)

/-- Embeds the recursion of `SimilarityTreeRegressor.get_depth`, recursing over child links: a node
whose two child attributes are `None` has depth 1, a node with two children
has depth `max + 1`; a node with exactly one `None` child dereferences
`None` (an `AttributeError` in Python), modelled by `none`. -/
def RNode.get_depth : RNode → Option ℕ
  | .mk none none => some 1
  | .mk (some l) (some r) =>
    match l.get_depth, r.get_depth with
    | some ld, some rd => some (if ld > rd then ld + 1 else rd + 1)
    | _, _ => none
  | .mk _ _ => none

/-- Embeds the recursion of `SimilarityTreeRegressor.get_n_leaves`, recursing over child links in the
same way as `RNode.get_depth`. -/
def RNode.get_n_leaves : RNode → Option ℕ
  | .mk none none => some 1
  | .mk (some l) (some r) =>
    match l.get_n_leaves, r.get_n_leaves with
    | some nl, some nr => some (nl + nr)
    | _, _ => none
  | .mk _ _ => none

/-- The attributes `SimilarityTreeRegressor.fit` assigns on `self`
(Python names carry a leading underscore: `_lhs`, `_rhs`, `_p`, `_q`,
`_similarities`, `_split_point`, `_value`, `_is_leaf`, `_node_id`). -/
structure RegrFitted where
  X_ : RMatrix
  y_ : List PyFloat
  lhs : Option RNode
  rhs : Option RNode
  p : Option (List PyFloat)
  q : Option (List PyFloat)
  similarities : List ℚ
  split_point : PyFloat
  value : Option ℚ
  is_leaf : Bool
  is_fitted_ : Bool
  node_id : ℕ

/-- Embeds `SimilarityTreeRegressor`.  The constructor parameters, plus the
attributes that exist only after `fit` (`none` on a fresh estimator).

The source also stores the constructor argument `sim_function`
(default `np.dot`); no code path under `src` ever calls it, so the embedding
omits the dead field.

The class attribute `_nodes_list` is shared across *all* instances of the
class; it is threaded explicitly through `fit` below.  The list's elements
are the appended node objects themselves and no code ever reads an element —
only `len(self._nodes_list)` is observed — so the shared list is represented
by its length. -/
structure SimilarityTreeRegressor where
  random_state : ℤ := 1
  n_directions : ℕ := 1
  max_depth : Option ℕ := none
  depth : ℕ := 1
  fitted : Option RegrFitted := none

/-- The assignment part of `SimilarityTreeRegressor.fit`, after input
validation: set `X_`, `y_`, clear the children, direction and similarity
attributes, set `_split_point = -inf`, append `self` to the shared
`_nodes_list`, set `_node_id = len(_nodes_list)`, then either mark the node
a leaf (when `depth == max_depth`) leaving `is_fitted_` `False`, or set
`is_fitted_ = True`.  Returns the updated estimator and the updated length
of the shared nodes list. -/
def SimilarityTreeRegressor.fitAssign (self : SimilarityTreeRegressor)
    (X : RMatrix) (y : List PyFloat) (nodes : ℕ) : SimilarityTreeRegressor × ℕ :=
  let f0 : RegrFitted :=
    { X_ := X, y_ := y, lhs := none, rhs := none, p := none, q := none,
      similarities := [], split_point := .ninf, value := none,
      is_leaf := false, is_fitted_ := false, node_id := nodes + 1 }
  match self.max_depth with
  | some d =>
    if self.depth = d then
      ({ self with fitted := some { f0 with is_leaf := true } }, nodes + 1)
    else
      ({ self with fitted := some { f0 with is_fitted_ := true } }, nodes + 1)
  | none => ({ self with fitted := some { f0 with is_fitted_ := true } }, nodes + 1)

/-- Embeds `SimilarityTreeRegressor._validate_X_predict`: `check_array(X)`. -/
def validate_X_predict (X : RMatrix) : Except SkError RMatrix :=
  check_array X

/-- Embeds `SimilarityTreeRegressor.fit`: when `check_input` holds, run
`check_X_y(X, y)`, `check_array(X)` and `_validate_X_predict` before any
attribute of `self` is assigned; then perform the assignments of
`fitAssign`.  `check_random_state(self.random_state)` always succeeds for an
integer seed and draws nothing, so it leaves no trace in the model. -/
def SimilarityTreeRegressor.fit (self : SimilarityTreeRegressor) (X : RMatrix)
    (y : List PyFloat) (nodes : ℕ) (check_input : Bool) :
    Except SkError (SimilarityTreeRegressor × ℕ) :=
  if check_input then
    match check_X_y_float X y with
    | .error e => .error e
    | .ok (X1, y1) =>
      match check_array X1 with
      | .error e => .error e
      | .ok X2 =>
        match validate_X_predict X2 with
        | .error e => .error e
        | .ok X3 => .ok (self.fitAssign X3 y1 nodes)
  else .ok (self.fitAssign X y nodes)

/-- The estimator object and shared nodes-list length observable after a call
to `SimilarityTreeRegressor.fit`, with Python exception semantics: when `fit`
raises, `self` and the shared list are exactly as they were before the
call. -/
def SimilarityTreeRegressor.fitCall (self : SimilarityTreeRegressor)
    (X : RMatrix) (y : List PyFloat) (nodes : ℕ) (check_input : Bool) :
    SimilarityTreeRegressor × ℕ :=
  match self.fit X y nodes check_input with
  | .ok out => out
  | .error _ => (self, nodes)

/-- Embeds `SimilarityTreeRegressor.predict`: when `check_input` holds,
`check_is_fitted(self, ['X_', 'y_', 'is_fitted_'])` (attribute existence),
then `check_array(X)` and `_validate_X_predict(X)`; the function body ends
with a bare `return`, i.e. it returns `None`, never a vector. -/
def SimilarityTreeRegressor.predict (self : SimilarityTreeRegressor)
    (X : RMatrix) (check_input : Bool) : Except SkError (Option (List ℚ)) :=
  if check_input then
    match self.fitted with
    | none => .error .notFitted
    | some _ =>
      match check_array X with
      | .error e => .error e
      | .ok X1 =>
        match validate_X_predict X1 with
        | .error e => .error e
        | .ok _ => .ok none
  else .ok none

/-- Embeds `SimilarityTreeRegressor.get_depth`: `check_is_fitted`, then the
recursion of `RNode.get_depth` on the node's own child links. -/
def SimilarityTreeRegressor.get_depth (self : SimilarityTreeRegressor) :
    Except SkError ℕ :=
  match self.fitted with
  | none => .error .notFitted
  | some f =>
    match RNode.get_depth (.mk f.lhs f.rhs) with
    | some d => .ok d
    | none => .error .attributeError

/-- Embeds `SimilarityTreeRegressor.get_n_leaves`: no fitted-check in the source,
but it reads `self._lhs`, which does not exist before `fit`
(`AttributeError`); then the recursion of `RNode.get_n_leaves`. -/
def SimilarityTreeRegressor.get_n_leaves (self : SimilarityTreeRegressor) :
    Except SkError ℕ :=
  match self.fitted with
  | none => .error .attributeError
  | some f =>
    match RNode.get_n_leaves (.mk f.lhs f.rhs) with
    | some n => .ok n
    | none => .error .attributeError

/-- Embeds `SimilarityForestRegressor` (nested inside `SimilarityTreeRegressor` in
the source).  Constructor parameters plus the fitted attributes
(`X_`, `y_`, `is_fitted_`), which **no** method of the class ever assigns:
`fitted` is `none` on construction and stays `none` forever.  The dead
`sim_function` constructor argument is omitted as in the tree regressor. -/
structure SimilarityForestRegressor where
  random_state : ℤ := 1
  n_estimators : ℕ := 20
  n_directions : ℕ := 1
  max_depth : Option ℕ := none
  oob_score : Bool := false
  fitted : Option Unit := none

/-- Embeds `SimilarityForestRegressor.fit`: when `check_input` holds, run
`check_X_y`, `check_array` and `_validate_X_predict`, then `return self`
without assigning any attribute. -/
def SimilarityForestRegressor.fit (self : SimilarityForestRegressor)
    (X : RMatrix) (y : List PyFloat) (check_input : Bool) :
    Except SkError SimilarityForestRegressor :=
  if check_input then
    match check_X_y_float X y with
    | .error e => .error e
    | .ok (X1, _) =>
      match check_array X1 with
      | .error e => .error e
      | .ok X2 =>
        match validate_X_predict X2 with
        | .error e => .error e
        | .ok _ => .ok self
  else .ok self

/-- Embeds `SimilarityForestRegressor.predict`: when `check_input` holds,
`check_is_fitted(self, ['X_', 'y_', 'is_fitted_'])`, then `check_array(X)`
and `_validate_X_predict(X)`; the body ends with a bare `return`, i.e. it
returns `None`, never a vector. -/
def SimilarityForestRegressor.predict (self : SimilarityForestRegressor)
    (X : RMatrix) (check_input : Bool) : Except SkError (Option (List ℚ)) :=
  if check_input then
    match self.fitted with
    | none => .error .notFitted
    | some _ =>
      match check_array X with
      | .error e => .error e
      | .ok X1 =>
        match validate_X_predict X1 with
        | .error e => .error e
        | .ok _ => .ok none
  else .ok none

/-- The most frequent label among `votes`, ties broken by the lowest label
(`none` only when there are no votes). -/
def majorityLabel (votes : List ℤ) : Option ℤ :=
  match votes.dedup.insertionSort (· ≤ ·) with
  | [] => none
  | c :: cs =>
    some (cs.foldl (fun best c2 => if votes.count c2 > votes.count best then c2 else best) c)

/-- Embeds `SimilarityForestClassifier`: in the source the class only forwards its
constructor arguments to `sklearn.ensemble.forest.ForestClassifier`; after a
successful `fit` it holds a collection of fitted tree classifiers. -/
structure SimilarityForestClassifier where
  n_estimators : ℕ := 100
  max_depth : Option ℕ := none
  bootstrap : Bool := true
  fitted : Option (List SimilarityTreeClassifier) := none

/-- Modelled from the spec: `SimilarityForestClassifier` defines no `predict`
of its own under `src`; the method is inherited from
`sklearn.ensemble.forest.ForestClassifier`, which is outside this
repository.  Per the spec, "NotFittedError — raised when predict/score is
invoked before fit", and prediction is "majority vote across trees' leaf
predictions; ties broken by lowest class label": the fitted-check comes
first, then input validation, then per-row majority vote over the
constituent trees' predictions. -/
def SimilarityForestClassifier.predict (self : SimilarityForestClassifier)
    (X : RMatrix) : Except SkError (List ℤ) :=
  match self.fitted with
  | none => .error .notFitted
  | some trees =>
    match check_array X with
    | .error e => .error e
    | .ok X1 =>
      match trees.mapM (fun t => t.predict X1) with
      | .error e => .error e
      | .ok preds =>
        .ok ((List.range X1.length).map (fun i =>
          (majorityLabel (preds.filterMap (fun pr => pr.get? i))).getD 0))

/-- Modelled from the spec: the clustering variant lives in
`simforest.cluster`, which the example scripts import but which is absent
from `src`.  Per the spec, `fit_predict` "builds the full tree top-down" by
recursive splitting; a fitted cluster hierarchy is therefore a binary tree
whose leaves are the original input points. -/
inductive SplitTree where
  | point (id : ℕ)
  | split (l r : SplitTree)

/-- Number of input points (leaves) under a cluster hierarchy. -/
def SplitTree.nPoints : SplitTree → ℕ
  | .point _ => 1
  | .split l r => l.nPoints + r.nPoints

/-- Number of split events (internal nodes) of a cluster hierarchy. -/
def SplitTree.nSplits : SplitTree → ℕ
  | .point _ => 0
  | .split l r => l.nSplits + r.nSplits + 1

/-- Modelled from the spec: one linkage row `(id_a, id_b, distance, size)`
recorded for a split event.  `newId` is the id the merged cluster receives —
"each newly formed cluster receives the next available id" — which the
agglomerative encoding keeps implicit as `n + row index`. -/
structure LinkRow where
  id_a : ℕ
  id_b : ℕ
  dist : ℚ
  size : ℕ
  newId : ℕ
  deriving DecidableEq

/-- Modelled from the spec: the linkage recording of §4.5.  Walking the
hierarchy, every split event contributes one row merging the cluster ids of
its two sides; `next` is the next available cluster id, threaded through;
`depth` is the tree depth from which the row's distance score is derived.
Returns the recorded rows, the cluster id of the walked subtree, the updated
next available id and the subtree's point count (the row's `size`). -/
def SplitTree.record : SplitTree → ℕ → ℕ → List LinkRow × ℕ × ℕ × ℕ
  | .point i, next, _ => ([], i, next, 1)
  | .split l r, next, depth =>
    let (rowsL, idL, next1, sizeL) := l.record next (depth + 1)
    let (rowsR, idR, next2, sizeR) := r.record next1 (depth + 1)
    (rowsL ++ rowsR ++ [{ id_a := idL, id_b := idR, dist := (depth : ℚ),
                          size := sizeL + sizeR, newId := next2 }],
     next2, next2 + 1, sizeL + sizeR)

/-- Modelled from the spec: the `links_` attribute exposed after fitting the
clustering variant — the full linkage sequence, with original points
`0..n−1` and the first merged cluster receiving id `n`. -/
def SplitTree.links_ (t : SplitTree) : List LinkRow :=
  (t.record t.nPoints 1).1

/-! ### Helper lemmas -/

lemma check_array_ok_eq (X X1 : RMatrix) (h : check_array X = .ok X1) : X1 = X := by
  cases X with
  | nil => simp [check_array] at h
  | cons r0 rest =>
    simp only [check_array] at h
    split_ifs at h <;> simp_all

lemma check_X_y_float_ok (X X1 : RMatrix) (y y1 : List PyFloat)
    (h : check_X_y_float X y = .ok (X1, y1)) :
    X1 = X ∧ y1 = y ∧ check_array X = .ok X := by
  unfold check_X_y_float at h
  cases hc : check_array X with
  | error e => rw [hc] at h; simp at h
  | ok X2 =>
    have hX2 : X2 = X := check_array_ok_eq X X2 hc
    rw [hX2] at hc
    rw [hc] at h
    by_cases h1 : y.length = X.length
    · by_cases h2 : y.all PyFloat.isFinite
      · simp only [h1, h2, if_true] at h
        simp only [Except.ok.injEq, Prod.mk.injEq] at h
        exact ⟨h.1.symm, h.2.symm, by rw [hX2]⟩
      · simp [h1, h2] at h
    · simp [h1] at h

lemma fit_ok_fitAssign (self : SimilarityTreeRegressor) (X : RMatrix)
    (y : List PyFloat) (nodes : ℕ) (ci : Bool)
    (out : SimilarityTreeRegressor × ℕ)
    (h : self.fit X y nodes ci = .ok out) :
    out = self.fitAssign X y nodes := by
  cases ci with
  | false =>
    unfold SimilarityTreeRegressor.fit at h
    simpa using h.symm
  | true =>
    cases hxy : check_X_y_float X y with
    | error e =>
      unfold SimilarityTreeRegressor.fit at h
      simp [hxy] at h
    | ok pr =>
      obtain ⟨X1, y1⟩ := pr
      obtain ⟨hX1, hy1, hidem⟩ := check_X_y_float_ok X X1 y y1 hxy
      subst hX1; subst hy1
      unfold SimilarityTreeRegressor.fit at h
      simp [hxy, hidem, validate_X_predict] at h
      exact h.symm

lemma fitAssign_snd (self : SimilarityTreeRegressor) (X : RMatrix)
    (y : List PyFloat) (nodes : ℕ) :
    (self.fitAssign X y nodes).2 = nodes + 1 := by
  unfold SimilarityTreeRegressor.fitAssign
  cases self.max_depth with
  | none => rfl
  | some d => by_cases hd : self.depth = d <;> simp [hd]

lemma fitAssign_node_id (self : SimilarityTreeRegressor) (X : RMatrix)
    (y : List PyFloat) (nodes : ℕ) :
    (self.fitAssign X y nodes).1.fitted.map RegrFitted.node_id = some (nodes + 1) := by
  unfold SimilarityTreeRegressor.fitAssign
  cases self.max_depth with
  | none => rfl
  | some d => by_cases hd : self.depth = d <;> simp [hd]

lemma fitAssign_children (self : SimilarityTreeRegressor) (X : RMatrix)
    (y : List PyFloat) (nodes : ℕ) :
    (self.fitAssign X y nodes).1.fitted.map RegrFitted.lhs = some none ∧
    (self.fitAssign X y nodes).1.fitted.map RegrFitted.rhs = some none := by
  unfold SimilarityTreeRegressor.fitAssign
  cases self.max_depth with
  | none => exact ⟨rfl, rfl⟩
  | some d => by_cases hd : self.depth = d <;> simp [hd]

lemma fitAssign_is_fitted (self : SimilarityTreeRegressor) (X : RMatrix)
    (y : List PyFloat) (nodes : ℕ) :
    ((self.fitAssign X y nodes).1.fitted.map RegrFitted.is_fitted_ = some true ↔
      (self.max_depth = none ∨ self.max_depth ≠ some self.depth)) := by
  unfold SimilarityTreeRegressor.fitAssign
  cases hmd : self.max_depth with
  | none => simp
  | some d =>
    by_cases hd : self.depth = d <;> simp [hd] <;> omega

lemma fitAssign_leaf (self : SimilarityTreeRegressor) (X : RMatrix)
    (y : List PyFloat) (nodes : ℕ) (h : self.max_depth = some self.depth) :
    (self.fitAssign X y nodes).1.fitted.map RegrFitted.is_leaf = some true ∧
    (self.fitAssign X y nodes).1.fitted.map RegrFitted.is_fitted_ = some false := by
  unfold SimilarityTreeRegressor.fitAssign
  rw [h]
  simp

/-- A fitted regressor node with the `_node_id` attribute masked out. -/
def RegrFitted.clearId (f : RegrFitted) : RegrFitted := { f with node_id := 0 }

lemma fitAssign_clearId (self : SimilarityTreeRegressor) (X : RMatrix)
    (y : List PyFloat) (n m : ℕ) :
    (self.fitAssign X y n).1.fitted.map RegrFitted.clearId =
      (self.fitAssign X y m).1.fitted.map RegrFitted.clearId := by
  unfold SimilarityTreeRegressor.fitAssign
  cases self.max_depth with
  | none => rfl
  | some d => by_cases hd : self.depth = d <;> simp [hd, RegrFitted.clearId]

lemma predict_congr (t1 t2 : SimilarityTreeRegressor)
    (h : t1.fitted.isSome = t2.fitted.isSome) (X : RMatrix) (ci : Bool) :
    t1.predict X ci = t2.predict X ci := by
  unfold SimilarityTreeRegressor.predict
  cases ci with
  | false => rfl
  | true =>
    cases h1 : t1.fitted <;> cases h2 : t2.fitted <;> simp_all

lemma fitAssign_isSome (self : SimilarityTreeRegressor) (X : RMatrix)
    (y : List PyFloat) (nodes : ℕ) :
    (self.fitAssign X y nodes).1.fitted.isSome = true := by
  unfold SimilarityTreeRegressor.fitAssign
  cases self.max_depth with
  | none => rfl
  | some d => by_cases hd : self.depth = d <;> simp [hd]

lemma record_newIds (t : SplitTree) (next depth : ℕ) :
    ((t.record next depth).1).map LinkRow.newId = List.range' next t.nSplits ∧
    (t.record next depth).2.2.1 = next + t.nSplits := by
  induction t generalizing next depth with
  | point i => simp [SplitTree.record, SplitTree.nSplits]
  | split l r ihl ihr =>
    rcases hL : l.record next (depth + 1) with ⟨rowsL, idL, next1, sizeL⟩
    rcases hR : r.record next1 (depth + 1) with ⟨rowsR, idR, next2, sizeR⟩
    have h1 := ihl next (depth + 1)
    have h2 := ihr next1 (depth + 1)
    rw [hL] at h1
    rw [hR] at h2
    simp only at h1 h2
    obtain ⟨hl1, hl2⟩ := h1
    obtain ⟨hr1, hr2⟩ := h2
    simp only [SplitTree.record, hL, hR, SplitTree.nSplits]
    constructor
    · rw [hl2] at hr1 hr2
      simp only [List.map_append, List.map_cons, List.map_nil, hl1, hr1, hr2]
      rw [List.range'_append_1]
      have e1 : l.nSplits + r.nSplits + 1 = r.nSplits + l.nSplits + 1 := by omega
      rw [e1, List.range'_1_concat]
      congr 1
      simp only [List.cons.injEq, and_true]
      omega
    · omega

lemma nPoints_eq_nSplits_succ (t : SplitTree) : t.nPoints = t.nSplits + 1 := by
  induction t with
  | point i => rfl
  | split l r ihl ihr =>
    simp only [SplitTree.nPoints, SplitTree.nSplits, ihl, ihr]
    omega

lemma fit_ok_parts (self : SimilarityTreeRegressor) (X : RMatrix)
    (y : List PyFloat) (nodes : ℕ) (ci : Bool)
    (t : SimilarityTreeRegressor) (n2 : ℕ)
    (h : self.fit X y nodes ci = .ok (t, n2)) :
    t = (self.fitAssign X y nodes).1 ∧ n2 = (self.fitAssign X y nodes).2 := by
  have hout := fit_ok_fitAssign self X y nodes ci (t, n2) h
  exact ⟨congrArg Prod.fst hout, congrArg Prod.snd hout⟩

lemma fitAssign_get_depth (self : SimilarityTreeRegressor) (X : RMatrix)
    (y : List PyFloat) (nodes : ℕ) :
    (self.fitAssign X y nodes).1.get_depth = .ok 1 := by
  unfold SimilarityTreeRegressor.fitAssign SimilarityTreeRegressor.get_depth
  cases self.max_depth with
  | none => rfl
  | some d => by_cases hd : self.depth = d <;> simp [hd, RNode.get_depth]

lemma fitAssign_get_n_leaves (self : SimilarityTreeRegressor) (X : RMatrix)
    (y : List PyFloat) (nodes : ℕ) :
    (self.fitAssign X y nodes).1.get_n_leaves = .ok 1 := by
  unfold SimilarityTreeRegressor.fitAssign SimilarityTreeRegressor.get_n_leaves
  cases self.max_depth with
  | none => rfl
  | some d => by_cases hd : self.depth = d <;> simp [hd, RNode.get_n_leaves]

/-! ### Concrete inputs used by the claims -/

/-- Scenario A training matrix: `X = [[0,0],[0,1],[5,5],[5,6]]`. -/
def scenarioX : RMatrix :=
  [[.finite 0, .finite 0], [.finite 0, .finite 1],
   [.finite 5, .finite 5], [.finite 5, .finite 6]]

/-- Scenario A class labels: `y = [0,0,1,1]`. -/
def scenarioY : List ℤ := [0, 0, 1, 1]

/-- A regression target vector for the same matrix. -/
def scenarioYr : List PyFloat := [.finite 1, .finite 1, .finite 9, .finite 9]

/-- A fresh regressor with default constructor arguments. -/
def regDemo : SimilarityTreeRegressor := {}

/-- The result of the assignment phase of `regDemo.fit` when the shared nodes
list already holds five nodes. -/
def regDemoFit : SimilarityTreeRegressor × ℕ := regDemo.fitAssign scenarioX scenarioYr 5

/-- A regressor constructed with `max_depth=1` (and the default `depth=1`). -/
def regMax1 : SimilarityTreeRegressor := { max_depth := some 1 }

/-- The result of the assignment phase of `regMax1.fit` on an empty shared
nodes list. -/
def regMax1Fit : SimilarityTreeRegressor × ℕ := regMax1.fitAssign scenarioX scenarioYr 0

/-- The classifier state produced by fitting on scenario A. -/
def clfA : SimilarityTreeClassifier :=
  { fitted := some { classes_ := [0, 1], X_ := scenarioX, y_ := scenarioY } }

/-! ### Claim C1 -/

/-- Claim C1, counterexample: on scenario A the fitted similarity tree
classifier returns `predict(X) = [1,1,1,1]` (the stubbed `np.ones`), not the
training labels `[0,0,1,1]` the claim asserts. -/
theorem C1_counterexample :
    (SimilarityTreeClassifier.fit {} scenarioX scenarioY).bind
      (fun c => c.predict scenarioX) = .ok [1, 1, 1, 1] ∧
    ([1, 1, 1, 1] : List ℤ) ≠ [0, 0, 1, 1] := by
  exact ⟨by rfl, by decide⟩

/-- Claim C1 as amended: for every fitted similarity tree classifier and
every input matrix accepted by validation, `predict` returns the all-ones
vector of length `n` — it ignores the training data entirely (the class
also accepts no `max_depth`, `n_directions` or `sim_function`
configuration). -/
theorem C1_amended_predict_returns_ones (c : SimilarityTreeClassifier)
    (f : ClfFitted) (hc : c.fitted = some f) (X X1 : RMatrix)
    (hX : check_array X = .ok X1) :
    c.predict X = .ok (List.replicate X1.length 1) := by
  unfold SimilarityTreeClassifier.predict
  rw [hc, hX]

/-- Witness for `C1_amended_predict_returns_ones` at scenario A. -/
theorem C1_amended_predict_returns_ones_witness :
    clfA.fitted = some { classes_ := [0, 1], X_ := scenarioX, y_ := scenarioY } ∧
    check_array scenarioX = .ok scenarioX ∧
    clfA.predict scenarioX = .ok (List.replicate scenarioX.length 1) :=
  ⟨rfl, by rfl,
    C1_amended_predict_returns_ones clfA _ rfl scenarioX scenarioX (by rfl)⟩

/-! ### Claim C2 -/

/-- Claim C2, counterexample: node ids are *not* tree-local.  Fitting a
first fresh regressor and then a second fresh regressor in the same process
(the shared `_nodes_list` carried over) gives the second tree's root
`_node_id = 2`, not `1`: fitting one tree does affect the ids assigned in
the other. -/
theorem C2_counterexample :
    (do
      let r1 ← SimilarityTreeRegressor.fit {} scenarioX scenarioYr 0 true
      let r2 ← SimilarityTreeRegressor.fit {} scenarioX scenarioYr r1.2 true
      pure (r1.1.fitted.map RegrFitted.node_id, r2.1.fitted.map RegrFitted.node_id) :
        Except SkError (Option ℕ × Option ℕ))
      = .ok (some 1, some 2) ∧ (2 : ℕ) ≠ 1 := by
  exact ⟨by rfl, by decide⟩

/-- Claim C2 as amended: node ids are assigned from a counter shared
process-wide by all `SimilarityTreeRegressor` instances (the class-level
`_nodes_list`): every successful fit, on any tree, appends one node and
assigns `_node_id = len(_nodes_list)`, so ids grow monotonically across all
fits in the process and only the first fitted root receives id 1. -/
theorem C2_amended_node_ids_process_wide (self : SimilarityTreeRegressor)
    (X : RMatrix) (y : List PyFloat) (nodes : ℕ) (ci : Bool)
    (t : SimilarityTreeRegressor) (n2 : ℕ)
    (h : self.fit X y nodes ci = .ok (t, n2)) :
    n2 = nodes + 1 ∧ t.fitted.map RegrFitted.node_id = some (nodes + 1) := by
  obtain ⟨ht, hn⟩ := fit_ok_parts self X y nodes ci t n2 h
  subst ht; subst hn
  exact ⟨fitAssign_snd self X y nodes, fitAssign_node_id self X y nodes⟩

/-- Witness for `C2_amended_node_ids_process_wide`: a fit on a shared list
already holding five nodes assigns id 6. -/
theorem C2_amended_node_ids_process_wide_witness :
    regDemo.fit scenarioX scenarioYr 5 true = .ok (regDemoFit.1, regDemoFit.2) ∧
    (regDemoFit.2 = 5 + 1 ∧
      regDemoFit.1.fitted.map RegrFitted.node_id = some (5 + 1)) :=
  ⟨by rfl,
    C2_amended_node_ids_process_wide regDemo scenarioX scenarioYr 5 true
      regDemoFit.1 regDemoFit.2 (by rfl)⟩

/-! ### Claim C3 -/

/-- Claim C3, counterexample: a similarity forest regressor does not return
a mean-of-trees vector — after a successful `fit` on valid data, `predict`
still raises `NotFittedError`, because `fit` assigns none of the attributes
`check_is_fitted` looks for. -/
theorem C3_counterexample :
    (SimilarityForestRegressor.fit {} scenarioX scenarioYr true).bind
      (fun f => f.predict scenarioX true) = .error .notFitted := by
  rfl

/-- Claim C3 as amended: `SimilarityForestRegressor.fit` performs only input
validation and returns the estimator unchanged, learning nothing; `predict`
after `fit` therefore raises `NotFittedError`, and with validation disabled
it returns `None` — in no case is a vector of per-tree mean predictions
produced. -/
theorem C3_amended_forest_fit_learns_nothing (self : SimilarityForestRegressor)
    (X : RMatrix) (y : List PyFloat) (ci : Bool) (f : SimilarityForestRegressor)
    (h : self.fit X y ci = .ok f) (X2 : RMatrix) :
    f = self ∧
    (self.fitted = none → f.predict X2 true = .error .notFitted) ∧
    f.predict X2 false = .ok none := by
  have hf : f = self := by
    cases ci with
    | false =>
      unfold SimilarityForestRegressor.fit at h
      simpa using h.symm
    | true =>
      cases hxy : check_X_y_float X y with
      | error e =>
        unfold SimilarityForestRegressor.fit at h
        simp [hxy] at h
      | ok pr =>
        obtain ⟨X1, y1⟩ := pr
        obtain ⟨hX1, hy1, hidem⟩ := check_X_y_float_ok X X1 y y1 hxy
        subst hX1; subst hy1
        unfold SimilarityForestRegressor.fit at h
        simp [hxy, hidem, validate_X_predict] at h
        exact h.symm
  subst hf
  refine ⟨rfl, fun hn => ?_, rfl⟩
  unfold SimilarityForestRegressor.predict
  simp [hn]

/-- Witness for `C3_amended_forest_fit_learns_nothing` on scenario data. -/
theorem C3_amended_forest_fit_learns_nothing_witness :
    SimilarityForestRegressor.fit {} scenarioX scenarioYr true =
      .ok ({} : SimilarityForestRegressor) ∧
    (({} : SimilarityForestRegressor) = {} ∧
      (({} : SimilarityForestRegressor).fitted = none →
        SimilarityForestRegressor.predict {} scenarioX true = .error .notFitted) ∧
      SimilarityForestRegressor.predict {} scenarioX false = .ok none) :=
  ⟨by rfl,
    C3_amended_forest_fit_learns_nothing {} scenarioX scenarioYr true {}
      (by rfl) scenarioX⟩

/-! ### Claim C4 -/

/-- Claim C4: on every similarity tree or forest estimator on which `fit`
has not been called (no fitted attributes exist), `predict` — and the
classifier's `predict_proba` — raises `NotFittedError`, for every input
matrix `X`, valid or not: the fitted-check precedes input validation, so
nothing else is raised before it. -/
theorem C4_predict_before_fit_raises (c : SimilarityTreeClassifier)
    (r : SimilarityTreeRegressor) (fr : SimilarityForestRegressor)
    (fc : SimilarityForestClassifier) (hc : c.fitted = none)
    (hr : r.fitted = none) (hfr : fr.fitted = none) (hfc : fc.fitted = none)
    (X : RMatrix) :
    c.predict X = .error .notFitted ∧
    c.predict_proba X = .error .notFitted ∧
    r.predict X true = .error .notFitted ∧
    fr.predict X true = .error .notFitted ∧
    fc.predict X = .error .notFitted := by
  refine ⟨?_, ?_, ?_, ?_, ?_⟩ <;>
    simp [SimilarityTreeClassifier.predict, SimilarityTreeClassifier.predict_proba,
      SimilarityTreeRegressor.predict, SimilarityForestRegressor.predict,
      SimilarityForestClassifier.predict, hc, hr, hfr, hfc]

/-- Witness for `C4_predict_before_fit_raises`: freshly constructed
estimators and an input that would itself fail validation (`[[nan]]`); the
error raised is still `NotFittedError`. -/
theorem C4_predict_before_fit_raises_witness :
    (({} : SimilarityTreeClassifier).fitted = none ∧
      ({} : SimilarityTreeRegressor).fitted = none ∧
      ({} : SimilarityForestRegressor).fitted = none ∧
      ({} : SimilarityForestClassifier).fitted = none) ∧
    (SimilarityTreeClassifier.predict {} [[.nan]] = .error .notFitted ∧
      SimilarityTreeClassifier.predict_proba {} [[.nan]] = .error .notFitted ∧
      SimilarityTreeRegressor.predict {} [[.nan]] true = .error .notFitted ∧
      SimilarityForestRegressor.predict {} [[.nan]] true = .error .notFitted ∧
      SimilarityForestClassifier.predict {} [[.nan]] = .error .notFitted) :=
  ⟨⟨rfl, rfl, rfl, rfl⟩,
    C4_predict_before_fit_raises {} {} {} {} rfl rfl rfl rfl [[.nan]]⟩

/-! ### Claim C5 -/

/-- Claim C5: when `SimilarityTreeRegressor.fit` is called (with input
checking on) on input that fails validation, the validation error is raised
before any learned attribute is assigned and before the shared nodes list is
touched: the observable state after the failed call equals the state before
it. -/
theorem C5_invalid_fit_state_unchanged (self : SimilarityTreeRegressor)
    (X : RMatrix) (y : List PyFloat) (nodes : ℕ)
    (h : check_X_y_float X y = .error .validation) :
    self.fit X y nodes true = .error .validation ∧
    self.fitCall X y nodes true = (self, nodes) := by
  have hfit : self.fit X y nodes true = .error .validation := by
    unfold SimilarityTreeRegressor.fit
    simp [h]
  refine ⟨hfit, ?_⟩
  unfold SimilarityTreeRegressor.fitCall
  rw [hfit]

/-- Witness for `C5_invalid_fit_state_unchanged`: a length-mismatched target
vector (4 samples, 1 target). -/
theorem C5_invalid_fit_state_unchanged_witness :
    check_X_y_float scenarioX [PyFloat.finite 1] = .error .validation ∧
    (SimilarityTreeRegressor.fit regDemo scenarioX [PyFloat.finite 1] 0 true =
        .error .validation ∧
      SimilarityTreeRegressor.fitCall regDemo scenarioX [PyFloat.finite 1] 0 true =
        (regDemo, 0)) :=
  ⟨by rfl,
    C5_invalid_fit_state_unchanged regDemo scenarioX [PyFloat.finite 1] 0 (by rfl)⟩

/-! ### Claim C6 -/

/-- Claim C6, counterexample: on scenario A (which has two classes),
`predict_proba` returns a one-dimensional array, not a two-dimensional
matrix with one column per class. -/
theorem C6_counterexample :
    ((SimilarityTreeClassifier.fit {} scenarioX scenarioY).bind
      (fun c => c.predict_proba scenarioX)).map NDArray.is2d = .ok false ∧
    (unique_labels scenarioY).length = 2 := by
  exact ⟨by rfl, by rfl⟩

/-- Claim C6 as amended: for every fitted classifier and every input matrix
accepted by validation, `predict_proba` returns the one-dimensional array
`np.ones(n)` — `n` ones, with no per-class columns. -/
theorem C6_amended_predict_proba_one_dim_ones (c : SimilarityTreeClassifier)
    (f : ClfFitted) (hc : c.fitted = some f) (X X1 : RMatrix)
    (hX : check_array X = .ok X1) :
    c.predict_proba X = .ok (NDArray.vec (List.replicate X1.length 1)) := by
  unfold SimilarityTreeClassifier.predict_proba
  rw [hc, hX]

/-- Witness for `C6_amended_predict_proba_one_dim_ones` at scenario A. -/
theorem C6_amended_predict_proba_one_dim_ones_witness :
    clfA.fitted = some { classes_ := [0, 1], X_ := scenarioX, y_ := scenarioY } ∧
    check_array scenarioX = .ok scenarioX ∧
    clfA.predict_proba scenarioX =
      .ok (NDArray.vec (List.replicate scenarioX.length 1)) :=
  ⟨rfl, by rfl,
    C6_amended_predict_proba_one_dim_ones clfA _ rfl scenarioX scenarioX (by rfl)⟩

/-! ### Claim C7 -/

/-- Claim C7, counterexample: refitting the same regressor with the same
`random_state` on identical data does not reproduce an identical tree: the
process-wide shared nodes list has grown, so the second fit's root gets
`_node_id = 2` where the first got `1`. -/
theorem C7_counterexample :
    (do
      let r1 ← SimilarityTreeRegressor.fit regDemo scenarioX scenarioYr 0 true
      let r2 ← r1.1.fit scenarioX scenarioYr r1.2 true
      pure (r1.1.fitted.map RegrFitted.node_id, r2.1.fitted.map RegrFitted.node_id) :
        Except SkError (Option ℕ × Option ℕ))
      = .ok (some 1, some 2) ∧ some (1 : ℕ) ≠ some 2 := by
  exact ⟨by rfl, by decide⟩

/-- Claim C7 as amended: two fits of the same regressor configuration on
identical training data produce identical learned state *except* for
`_node_id` (drawn from the process-wide shared nodes list), and their
`predict` agrees on every input. -/
theorem C7_amended_refit_identical_except_node_id
    (self : SimilarityTreeRegressor) (X : RMatrix) (y : List PyFloat)
    (n1 n2 : ℕ) (ci : Bool) (t1 t2 : SimilarityTreeRegressor) (m1 m2 : ℕ)
    (h1 : self.fit X y n1 ci = .ok (t1, m1))
    (h2 : self.fit X y n2 ci = .ok (t2, m2))
    (X2 : RMatrix) (ci2 : Bool) :
    t1.fitted.map RegrFitted.clearId = t2.fitted.map RegrFitted.clearId ∧
    t1.predict X2 ci2 = t2.predict X2 ci2 := by
  obtain ⟨ht1, -⟩ := fit_ok_parts self X y n1 ci t1 m1 h1
  obtain ⟨ht2, -⟩ := fit_ok_parts self X y n2 ci t2 m2 h2
  subst ht1; subst ht2
  refine ⟨fitAssign_clearId self X y n1 n2, predict_congr _ _ ?_ X2 ci2⟩
  rw [fitAssign_isSome, fitAssign_isSome]

/-- Witness for `C7_amended_refit_identical_except_node_id`: the first and
second fit of `regDemo` (nodes lists of length 0 and 1 respectively). -/
theorem C7_amended_refit_identical_except_node_id_witness :
    regDemo.fit scenarioX scenarioYr 0 true =
      .ok ((regDemo.fitAssign scenarioX scenarioYr 0).1,
           (regDemo.fitAssign scenarioX scenarioYr 0).2) ∧
    regDemo.fit scenarioX scenarioYr 1 true =
      .ok ((regDemo.fitAssign scenarioX scenarioYr 1).1,
           (regDemo.fitAssign scenarioX scenarioYr 1).2) ∧
    ((regDemo.fitAssign scenarioX scenarioYr 0).1.fitted.map RegrFitted.clearId =
        (regDemo.fitAssign scenarioX scenarioYr 1).1.fitted.map RegrFitted.clearId ∧
      (regDemo.fitAssign scenarioX scenarioYr 0).1.predict scenarioX true =
        (regDemo.fitAssign scenarioX scenarioYr 1).1.predict scenarioX true) :=
  ⟨by rfl, by rfl,
    C7_amended_refit_identical_except_node_id regDemo scenarioX scenarioYr 0 1
      true _ _ _ _ (by rfl) (by rfl) scenarioX true⟩

/-! ### Claim C8 -/

/-- Claim C8 (clustering variant, modelled from the spec): after fitting on
`n` input points, the recorded linkage sequence `links_` has exactly `n − 1`
rows, and the cluster ids introduced by successive merge rows strictly
increase and are never repeated. -/
theorem C8_linkage_row_count_and_fresh_ids (t : SplitTree) :
    t.links_.length = t.nPoints - 1 ∧
    (t.links_.map LinkRow.newId).Pairwise (· < ·) ∧
    (t.links_.map LinkRow.newId).Nodup := by
  have h := record_newIds t t.nPoints 1
  unfold SplitTree.links_
  refine ⟨?_, ?_, ?_⟩
  · have hlen := congrArg List.length h.1
    rw [List.length_map, List.length_range'] at hlen
    rw [hlen, nPoints_eq_nSplits_succ]
    omega
  · rw [h.1]
    exact List.pairwise_lt_range' t.nPoints t.nSplits
  · rw [h.1]
    exact (List.pairwise_lt_range' t.nPoints t.nSplits).imp
      (fun hlt => Nat.ne_of_lt hlt)

/-! ### Claim C9 -/

/-- Claim C9: after a successful `SimilarityTreeRegressor.fit`, `is_fitted_`
is `True` exactly when `max_depth` is unset or the node's `depth` differs
from `max_depth`; when `depth` equals a set `max_depth`, the node is marked
a leaf (`_is_leaf = True`) and `fit` returns with `is_fitted_` still
`False`. -/
theorem C9_is_fitted_iff_not_max_depth (self : SimilarityTreeRegressor)
    (X : RMatrix) (y : List PyFloat) (nodes : ℕ) (ci : Bool)
    (t : SimilarityTreeRegressor) (n2 : ℕ)
    (h : self.fit X y nodes ci = .ok (t, n2)) :
    (t.fitted.map RegrFitted.is_fitted_ = some true ↔
      (self.max_depth = none ∨ self.max_depth ≠ some self.depth)) ∧
    (self.max_depth = some self.depth →
      t.fitted.map RegrFitted.is_leaf = some true ∧
      t.fitted.map RegrFitted.is_fitted_ = some false) := by
  obtain ⟨ht, -⟩ := fit_ok_parts self X y nodes ci t n2 h
  subst ht
  exact ⟨fitAssign_is_fitted self X y nodes,
    fun hd => fitAssign_leaf self X y nodes hd⟩

/-- Witness for `C9_is_fitted_iff_not_max_depth`: `max_depth=1` with the
default root `depth=1` hits the leaf branch and leaves `is_fitted_` `False`. -/
theorem C9_is_fitted_iff_not_max_depth_witness :
    regMax1.fit scenarioX scenarioYr 0 true = .ok (regMax1Fit.1, regMax1Fit.2) ∧
    ((regMax1Fit.1.fitted.map RegrFitted.is_fitted_ = some true ↔
        (regMax1.max_depth = none ∨ regMax1.max_depth ≠ some regMax1.depth)) ∧
      (regMax1.max_depth = some regMax1.depth →
        regMax1Fit.1.fitted.map RegrFitted.is_leaf = some true ∧
        regMax1Fit.1.fitted.map RegrFitted.is_fitted_ = some false)) :=
  ⟨by rfl,
    C9_is_fitted_iff_not_max_depth regMax1 scenarioX scenarioYr 0 true
      regMax1Fit.1 regMax1Fit.2 (by rfl)⟩

/-! ### Claim C10 -/

/-- Claim C10: `SimilarityTreeRegressor.fit` never constructs child nodes —
after every successful fit `_lhs` and `_rhs` are `None`, so `get_depth()`
returns 1 and `get_n_leaves()` returns 1, regardless of the training data or
configuration. -/
theorem C10_fit_builds_single_node (self : SimilarityTreeRegressor)
    (X : RMatrix) (y : List PyFloat) (nodes : ℕ) (ci : Bool)
    (t : SimilarityTreeRegressor) (n2 : ℕ)
    (h : self.fit X y nodes ci = .ok (t, n2)) :
    t.fitted.map RegrFitted.lhs = some none ∧
    t.fitted.map RegrFitted.rhs = some none ∧
    t.get_depth = .ok 1 ∧
    t.get_n_leaves = .ok 1 := by
  obtain ⟨ht, -⟩ := fit_ok_parts self X y nodes ci t n2 h
  subst ht
  obtain ⟨hl, hr⟩ := fitAssign_children self X y nodes
  exact ⟨hl, hr, fitAssign_get_depth self X y nodes,
    fitAssign_get_n_leaves self X y nodes⟩

/-- Witness for `C10_fit_builds_single_node` on scenario data. -/
theorem C10_fit_builds_single_node_witness :
    regDemo.fit scenarioX scenarioYr 0 true =
      .ok ((regDemo.fitAssign scenarioX scenarioYr 0).1,
           (regDemo.fitAssign scenarioX scenarioYr 0).2) ∧
    ((regDemo.fitAssign scenarioX scenarioYr 0).1.fitted.map RegrFitted.lhs = some none ∧
      (regDemo.fitAssign scenarioX scenarioYr 0).1.fitted.map RegrFitted.rhs = some none ∧
      (regDemo.fitAssign scenarioX scenarioYr 0).1.get_depth = .ok 1 ∧
      (regDemo.fitAssign scenarioX scenarioYr 0).1.get_n_leaves = .ok 1) :=
  ⟨by rfl,
    C10_fit_builds_single_node regDemo scenarioX scenarioYr 0 true _ _ (by rfl)⟩
